import Mathlib

/-!
Shallow embedding of the `quanminh2910/uart` repository: three auto-generated
Vitis IDE session journals (`src/_ide/workspace_journal_15852.py`,
`workspace_journal_9876.py`, `workspace_journal_14312.py`).  Each journal is a
straight-line Python script issuing vendor API calls (`vitis.create_client`,
`client.set_workspace`, `client.create_advanced_options_dict`,
`client.create_platform_component`, `client.get_component`,
`component.build`, `vitis.dispose`).  We model a script as a list of
statements over a local variable environment; the external toolchain is an
oracle deciding, per issued call, whether the call raises and which build
status it returns.  A run yields the trace of API calls actually issued,
whether the script ran to completion, and the final local environment.
-/

namespace Uart

/-- Provenance of a component handle: produced by a creation call or by a
by-name lookup. -/
inductive Origin where
  | created
  | retrieved
deriving DecidableEq, Repr

/-- Python values that the journal scripts bind to local variables. -/
inductive Value where
  | client
  | unit
  | options (dt_overlay : String)
  | component (origin : Origin) (name : String)
  | status (code : Int)
deriving DecidableEq, Repr

/-- One vendor API call, with the argument values the scripts pass.  A
`build` call records the receiver handle it is invoked on. -/
inductive APICall where
  | create_client
  | set_workspace (path : String)
  | create_advanced_options_dict (dt_overlay : String)
  | create_platform_component (name hw_design os cpu domain_name : String)
      (generate_dtb : Bool) (advanced_options : Option Value) (compiler : String)
  | get_component (name : String)
  | build (receiver : Option Value)
  | dispose
deriving DecidableEq, Repr

/-- The local variables appearing in the three scripts. -/
inductive Var where
  | client
  | platform
  | comp
  | status
  | advanced_options
deriving DecidableEq, Repr

/-- Local variable environment of a running script (all variables unbound
before first assignment, as in Python). -/
structure Env where
  client : Option Value
  platform : Option Value
  comp : Option Value
  status : Option Value
  advanced_options : Option Value
deriving DecidableEq, Repr

/-- The environment at script start: no variable bound. -/
def Env.init : Env := ⟨none, none, none, none, none⟩

/-- Assignment of a value to an optional left-hand-side variable. -/
def setVar : Option Var → Value → Env → Env
  | none, _, e => e
  | some .client, v, e => ⟨some v, e.platform, e.comp, e.status, e.advanced_options⟩
  | some .platform, v, e => ⟨e.client, some v, e.comp, e.status, e.advanced_options⟩
  | some .comp, v, e => ⟨e.client, e.platform, some v, e.status, e.advanced_options⟩
  | some .status, v, e => ⟨e.client, e.platform, e.comp, some v, e.advanced_options⟩
  | some .advanced_options, v, e => ⟨e.client, e.platform, e.comp, e.status, some v⟩

/-- One script statement: an optional assignment target and the API call the
statement issues, computed from the current environment (the scripts pass
variables such as `advanced_options` and invoke `build` on handle
variables). -/
structure Stmt where
  lhs : Option Var
  call : Env → APICall

/-- The external toolchain, as an oracle over call positions: whether the
k-th issued call raises an exception, and the status code the k-th call
returns when it is a build. -/
structure Oracle where
  raises : Nat → Bool
  buildStatus : Nat → Int

/-- The value a successful API call returns (bound to the statement's
left-hand side).  `st` is the oracle's status code for this position and is
used only by `build`. -/
def callResult (c : APICall) (st : Int) : Value :=
  match c with
  | .create_client => .client
  | .set_workspace _ => .unit
  | .create_advanced_options_dict s => .options s
  | .create_platform_component n _ _ _ _ _ _ _ => .component .created n
  | .get_component n => .component .retrieved n
  | .build _ => .status st
  | .dispose => .unit

/-- Sequential execution of the remaining statements, keeping the call
counter `k`.  A raising call is still issued (it appears in the trace) but
aborts the script immediately — the journals contain no try/except or
try/finally, so nothing after a raising call runs. -/
def runAux (o : Oracle) : List Stmt → Env → Nat → List APICall × Bool × Env
  | [], env, _ => ([], true, env)
  | s :: rest, env, k =>
      let c := s.call env
      if o.raises k then ([c], false, env)
      else
        let r := runAux o rest (setVar s.lhs (callResult c (o.buildStatus k)) env) (k + 1)
        (c :: r.1, r.2)

/-- Run a script from the empty environment. -/
def run (sc : List Stmt) (o : Oracle) : List APICall × Bool × Env :=
  runAux o sc Env.init 0

/-- The API calls a run actually issues, in order. -/
def trace (sc : List Stmt) (o : Oracle) : List APICall := (run sc o).1

/-- Whether the run reached the end of the script without an exception. -/
def completes (sc : List Stmt) (o : Oracle) : Bool := (run sc o).2.1

/-- The local environment when the run stops. -/
def finalEnv (sc : List Stmt) (o : Oracle) : Env := (run sc o).2.2

/-! Statements of the three journals, one Lean definition per distinct
Python line. -/

/-- `client = vitis.create_client()` -/
def stmtCreateClient : Stmt := ⟨some .client, fun _ => .create_client⟩

/-- `client.set_workspace(path="vitiswork")` -/
def stmtSetWorkspace : Stmt := ⟨none, fun _ => .set_workspace "vitiswork"⟩

/-- `advanced_options = client.create_advanced_options_dict(dt_overlay="0")` -/
def stmtAdvancedOptions : Stmt :=
  ⟨some .advanced_options, fun _ => .create_advanced_options_dict "0"⟩

/-- `platform = client.create_platform_component(name = "ARTY", hw_design =
"$COMPONENT_LOCATION/../../Do_an_v1/artyz7_20_platform.xsa", os =
"standalone", cpu = "ps7_cortexa9_0", domain_name =
"standalone_ps7_cortexa9_0", generate_dtb = False, advanced_options =
advanced_options, compiler = "gcc")` -/
def stmtCreatePlatform : Stmt :=
  ⟨some .platform, fun e =>
    .create_platform_component "ARTY"
      "$COMPONENT_LOCATION/../../Do_an_v1/artyz7_20_platform.xsa"
      "standalone" "ps7_cortexa9_0" "standalone_ps7_cortexa9_0"
      false e.advanced_options "gcc"⟩

/-- `platform = client.get_component(name="ARTY")` -/
def stmtGetPlatform : Stmt := ⟨some .platform, fun _ => .get_component "ARTY"⟩

/-- `status = platform.build()` -/
def stmtBuildPlatform : Stmt := ⟨some .status, fun e => .build e.platform⟩

/-- `comp = client.get_component(name="app_component")` -/
def stmtGetApp : Stmt := ⟨some .comp, fun _ => .get_component "app_component"⟩

/-- `comp.build()` (return value discarded) -/
def stmtBuildApp : Stmt := ⟨none, fun e => .build e.comp⟩

/-- `vitis.dispose()` -/
def stmtDispose : Stmt := ⟨none, fun _ => .dispose⟩

/-- `src/_ide/workspace_journal_15852.py` (2025-11-06T02:19:20): the
creation scenario — create the ARTY platform, re-fetch it by name, build
it. -/
def workspace_journal_15852 : List Stmt :=
  [stmtCreateClient, stmtSetWorkspace, stmtAdvancedOptions, stmtCreatePlatform,
   stmtGetPlatform, stmtBuildPlatform, stmtDispose]

/-- `src/_ide/workspace_journal_9876.py` (2025-11-11T20:55:38): build the
platform, then the application component. -/
def workspace_journal_9876 : List Stmt :=
  [stmtCreateClient, stmtSetWorkspace, stmtGetPlatform, stmtBuildPlatform,
   stmtGetApp, stmtBuildApp, stmtDispose]

/-- `src/_ide/workspace_journal_14312.py` (2025-11-11T21:13:38): the
rebuild-after-app-build scenario — platform, app, platform again. -/
def workspace_journal_14312 : List Stmt :=
  [stmtCreateClient, stmtSetWorkspace, stmtGetPlatform, stmtBuildPlatform,
   stmtGetApp, stmtBuildApp, stmtBuildPlatform, stmtDispose]

/-! Call classifiers used by the properties. -/

def isDispose : APICall → Bool
  | .dispose => true
  | _ => false

def isCreateClient : APICall → Bool
  | .create_client => true
  | _ => false

def isBuild : APICall → Bool
  | .build _ => true
  | _ => false

def isSetWorkspace : APICall → Bool
  | .set_workspace _ => true
  | _ => false

/-- A by-name lookup of component `n`. -/
def isGet (n : String) : APICall → Bool
  | .get_component m => n == m
  | _ => false

/-- A creation call registering component `n` (the only creation call in the
observed API surface is `create_platform_component`). -/
def isCreateComp (n : String) : APICall → Bool
  | .create_platform_component m _ _ _ _ _ _ _ => n == m
  | _ => false

/-- A component-registry operation (creation or lookup). -/
def isComponentOp : APICall → Bool
  | .create_platform_component _ _ _ _ _ _ _ _ => true
  | .get_component _ => true
  | _ => false

/-- A benign toolchain: no call raises; every build reports status 0. -/
def noRaiseOracle : Oracle := ⟨fun _ => false, fun _ => 0⟩

/-- A toolchain that raises on the fourth issued call (position 3) — in
`workspace_journal_9876` and `workspace_journal_14312` that is the first
`platform.build()` call. -/
def raiseAtFirstBuild : Oracle := ⟨fun k => k == 3, fun _ => 0⟩

/-- A benign toolchain whose builds all report status 1 instead of 0. -/
def altStatusOracle : Oracle := ⟨fun _ => false, fun _ => 1⟩

/-- The three journals concatenated in session timestamp order (15852 on
2025-11-06, then 9876 and 14312 on 2025-11-11), as one combined transcript
of a benign run. -/
def journal : List APICall :=
  trace workspace_journal_15852 noRaiseOracle ++
  trace workspace_journal_9876 noRaiseOracle ++
  trace workspace_journal_14312 noRaiseOracle

/-- The environment transformation a single statement performs when its call
returns status code `st`. -/
def stepEnv (s : Stmt) (st : Int) (env : Env) : Env :=
  setVar s.lhs (callResult (s.call env) st) env

/-- Every `build` call in the trace is invoked on a handle that a by-name
lookup (`get_component`) produced. -/
def buildOnRetrieved : APICall → Bool
  | .build (some (.component .retrieved _)) => true
  | .build _ => false
  | _ => true

/-- An earlier call of the trace prefix yields the handle `(g, n)`:
`get_component n` for a retrieved handle, a creation call for a created
one. -/
def yieldsHandle (n : String) (g : Origin) : APICall → Bool
  | .get_component m => g == .retrieved && n == m
  | .create_platform_component m _ _ _ _ _ _ _ => g == .created && n == m
  | _ => false

/-- Position `i` of the trace is fine for handle provenance: if it is a
`build`, its receiver is a component handle yielded by some strictly earlier
call. -/
def handleResolvedAt (tr : List APICall) (i : Nat) : Bool :=
  match tr[i]? with
  | some (.build (some (.component g n))) => (tr.take i).any (yieldsHandle n g)
  | some (.build _) => false
  | _ => true

/-- Every `build` in the trace runs on a handle obtained earlier in the same
session. -/
def buildsResolved (tr : List APICall) : Bool :=
  (List.range tr.length).all (handleResolvedAt tr)

/-- No API call of any kind occurs after a `dispose` in the trace. -/
def disposeTerminal (tr : List APICall) : Bool :=
  (List.range tr.length).all fun i =>
    match tr[i]? with
    | some .dispose => i + 1 == tr.length
    | _ => true

/-! Status-noninterference machinery: the environment with the build-status
variable erased, and a congruence lemma showing that scripts whose calls
never read `status` issue identical call sequences whatever statuses the
toolchain returns. -/

/-- The environment with the `status` variable erased. -/
def Env.mask (e : Env) : Env := ⟨e.client, e.platform, e.comp, none, e.advanced_options⟩

theorem mask_setVar_status (v : Value) (e : Env) :
    Env.mask (setVar (some .status) v e) = Env.mask e := rfl

theorem mask_setVar_congr (l : Option Var) (v : Value) (e₁ e₂ : Env)
    (h : Env.mask e₁ = Env.mask e₂) :
    Env.mask (setVar l v e₁) = Env.mask (setVar l v e₂) := by
  simp only [Env.mask, Env.mk.injEq] at h
  obtain ⟨hc, hp, hm, ha⟩ := h
  cases l with
  | none => simp [setVar, Env.mask, hc, hp, hm, ha]
  | some w => cases w <;> simp [setVar, Env.mask, hc, hp, hm, ha]

theorem callResult_nonbuild (c : APICall) (st₁ st₂ : Int)
    (h : isBuild c = false) : callResult c st₁ = callResult c st₂ := by
  cases c <;> simp_all [isBuild, callResult]

/-- Status noninterference at the level of the semantics: if every statement
of the script computes its call from the status-erased environment only and
binds a build result only to the `status` variable (or discards it), then
two toolchains agreeing on exception behaviour yield the same call trace and
the same completion verdict, whatever build statuses they return. -/
theorem runAux_status_congr (r : Nat → Bool) (s₁ s₂ : Nat → Int) (l : List Stmt)
    (hob : ∀ s ∈ l, ∀ e₁ e₂ : Env, Env.mask e₁ = Env.mask e₂ → s.call e₁ = s.call e₂)
    (hcf : ∀ s ∈ l, ∀ e : Env, isBuild (s.call e) = true → s.lhs = none ∨ s.lhs = some .status) :
    ∀ e₁ e₂ : Env, ∀ k : Nat, Env.mask e₁ = Env.mask e₂ →
      (runAux ⟨r, s₁⟩ l e₁ k).1 = (runAux ⟨r, s₂⟩ l e₂ k).1 ∧
      (runAux ⟨r, s₁⟩ l e₁ k).2.1 = (runAux ⟨r, s₂⟩ l e₂ k).2.1 := by
  induction l with
  | nil => intro e₁ e₂ k _; exact ⟨rfl, rfl⟩
  | cons s rest ih =>
      intro e₁ e₂ k hmask
      have hcall : s.call e₁ = s.call e₂ := hob s (by simp) e₁ e₂ hmask
      simp only [runAux]
      rw [hcall]
      cases hr : r k with
      | true => simp
      | false =>
          have hmask' :
              Env.mask (setVar s.lhs (callResult (s.call e₂) (s₁ k)) e₁) =
              Env.mask (setVar s.lhs (callResult (s.call e₂) (s₂ k)) e₂) := by
            cases hb : isBuild (s.call e₂) with
            | false =>
                rw [callResult_nonbuild _ (s₁ k) (s₂ k) hb]
                exact mask_setVar_congr _ _ _ _ hmask
            | true =>
                rcases hcf s (by simp) e₂ hb with hl | hl <;> rw [hl]
                · exact hmask
                · rw [mask_setVar_status, mask_setVar_status]; exact hmask
          have h2 := ih (fun t ht => hob t (by simp [ht])) (fun t ht => hcf t (by simp [ht]))
            (setVar s.lhs (callResult (s.call e₂) (s₁ k)) e₁)
            (setVar s.lhs (callResult (s.call e₂) (s₂ k)) e₂) (k + 1) hmask'
          simp [hr, h2.1, h2.2]

theorem mask_platform_eq (e₁ e₂ : Env) (h : Env.mask e₁ = Env.mask e₂) :
    e₁.platform = e₂.platform := by
  simpa [Env.mask] using congrArg Env.platform h

theorem mask_comp_eq (e₁ e₂ : Env) (h : Env.mask e₁ = Env.mask e₂) :
    e₁.comp = e₂.comp := by
  simpa [Env.mask] using congrArg Env.comp h

theorem mask_advanced_eq (e₁ e₂ : Env) (h : Env.mask e₁ = Env.mask e₂) :
    e₁.advanced_options = e₂.advanced_options := by
  simpa [Env.mask] using congrArg Env.advanced_options h

theorem hob_15852 : ∀ s ∈ workspace_journal_15852, ∀ e₁ e₂ : Env,
    Env.mask e₁ = Env.mask e₂ → s.call e₁ = s.call e₂ := by
  intro s hs e₁ e₂ hm
  fin_cases hs <;>
    simp [stmtCreateClient, stmtSetWorkspace, stmtAdvancedOptions, stmtCreatePlatform,
      stmtGetPlatform, stmtBuildPlatform, stmtDispose,
      mask_platform_eq e₁ e₂ hm, mask_comp_eq e₁ e₂ hm, mask_advanced_eq e₁ e₂ hm]

theorem hcf_15852 : ∀ s ∈ workspace_journal_15852, ∀ e : Env,
    isBuild (s.call e) = true → s.lhs = none ∨ s.lhs = some .status := by
  intro s hs e hb
  fin_cases hs <;>
    simp_all [stmtCreateClient, stmtSetWorkspace, stmtAdvancedOptions, stmtCreatePlatform,
      stmtGetPlatform, stmtBuildPlatform, stmtDispose, isBuild]

theorem hob_9876 : ∀ s ∈ workspace_journal_9876, ∀ e₁ e₂ : Env,
    Env.mask e₁ = Env.mask e₂ → s.call e₁ = s.call e₂ := by
  intro s hs e₁ e₂ hm
  fin_cases hs <;>
    simp [stmtCreateClient, stmtSetWorkspace, stmtGetPlatform, stmtBuildPlatform,
      stmtGetApp, stmtBuildApp, stmtDispose,
      mask_platform_eq e₁ e₂ hm, mask_comp_eq e₁ e₂ hm]

theorem hcf_9876 : ∀ s ∈ workspace_journal_9876, ∀ e : Env,
    isBuild (s.call e) = true → s.lhs = none ∨ s.lhs = some .status := by
  intro s hs e hb
  fin_cases hs <;>
    simp_all [stmtCreateClient, stmtSetWorkspace, stmtGetPlatform, stmtBuildPlatform,
      stmtGetApp, stmtBuildApp, stmtDispose, isBuild]

theorem hob_14312 : ∀ s ∈ workspace_journal_14312, ∀ e₁ e₂ : Env,
    Env.mask e₁ = Env.mask e₂ → s.call e₁ = s.call e₂ := by
  intro s hs e₁ e₂ hm
  fin_cases hs <;>
    simp [stmtCreateClient, stmtSetWorkspace, stmtGetPlatform, stmtBuildPlatform,
      stmtGetApp, stmtBuildApp, stmtDispose,
      mask_platform_eq e₁ e₂ hm, mask_comp_eq e₁ e₂ hm]

theorem hcf_14312 : ∀ s ∈ workspace_journal_14312, ∀ e : Env,
    isBuild (s.call e) = true → s.lhs = none ∨ s.lhs = some .status := by
  intro s hs e hb
  fin_cases hs <;>
    simp_all [stmtCreateClient, stmtSetWorkspace, stmtGetPlatform, stmtBuildPlatform,
      stmtGetApp, stmtBuildApp, stmtDispose, isBuild]

/-- Wrapper of the congruence lemma at the level of whole runs. -/
theorem trace_status_indep (sc : List Stmt)
    (hob : ∀ s ∈ sc, ∀ e₁ e₂ : Env, Env.mask e₁ = Env.mask e₂ → s.call e₁ = s.call e₂)
    (hcf : ∀ s ∈ sc, ∀ e : Env, isBuild (s.call e) = true → s.lhs = none ∨ s.lhs = some .status)
    (o₁ o₂ : Oracle) (h : o₁.raises = o₂.raises) :
    trace sc o₁ = trace sc o₂ ∧ completes sc o₁ = completes sc o₂ := by
  obtain ⟨r₁, s₁⟩ := o₁
  obtain ⟨r₂, s₂⟩ := o₂
  simp only at h
  subst h
  have := runAux_status_congr r₁ s₁ s₂ sc hob hcf Env.init Env.init 0 rfl
  exact ⟨this.1, this.2⟩

/-! Evaluation of the three journals under a toolchain that raises no
exception. -/

theorem run_15852 (o : Oracle) (h : ∀ k, o.raises k = false) :
    run workspace_journal_15852 o =
      ([.create_client, .set_workspace "vitiswork", .create_advanced_options_dict "0",
        .create_platform_component "ARTY"
          "$COMPONENT_LOCATION/../../Do_an_v1/artyz7_20_platform.xsa"
          "standalone" "ps7_cortexa9_0" "standalone_ps7_cortexa9_0"
          false (some (.options "0")) "gcc",
        .get_component "ARTY", .build (some (.component .retrieved "ARTY")), .dispose],
       true,
       ⟨some .client, some (.component .retrieved "ARTY"), none,
        some (.status (o.buildStatus 5)), some (.options "0")⟩) := by
  simp [run, runAux, workspace_journal_15852, stmtCreateClient, stmtSetWorkspace,
    stmtAdvancedOptions, stmtCreatePlatform, stmtGetPlatform, stmtBuildPlatform,
    stmtDispose, setVar, callResult, Env.init, h]

theorem run_9876 (o : Oracle) (h : ∀ k, o.raises k = false) :
    run workspace_journal_9876 o =
      ([.create_client, .set_workspace "vitiswork", .get_component "ARTY",
        .build (some (.component .retrieved "ARTY")), .get_component "app_component",
        .build (some (.component .retrieved "app_component")), .dispose],
       true,
       ⟨some .client, some (.component .retrieved "ARTY"),
        some (.component .retrieved "app_component"),
        some (.status (o.buildStatus 3)), none⟩) := by
  simp [run, runAux, workspace_journal_9876, stmtCreateClient, stmtSetWorkspace,
    stmtGetPlatform, stmtBuildPlatform, stmtGetApp, stmtBuildApp,
    stmtDispose, setVar, callResult, Env.init, h]

theorem run_14312 (o : Oracle) (h : ∀ k, o.raises k = false) :
    run workspace_journal_14312 o =
      ([.create_client, .set_workspace "vitiswork", .get_component "ARTY",
        .build (some (.component .retrieved "ARTY")), .get_component "app_component",
        .build (some (.component .retrieved "app_component")),
        .build (some (.component .retrieved "ARTY")), .dispose],
       true,
       ⟨some .client, some (.component .retrieved "ARTY"),
        some (.component .retrieved "app_component"),
        some (.status (o.buildStatus 6)), none⟩) := by
  simp [run, runAux, workspace_journal_14312, stmtCreateClient, stmtSetWorkspace,
    stmtGetPlatform, stmtBuildPlatform, stmtGetApp, stmtBuildApp,
    stmtDispose, setVar, callResult, Env.init, h]

theorem trace_15852 (o : Oracle) (h : ∀ k, o.raises k = false) :
    trace workspace_journal_15852 o =
      [.create_client, .set_workspace "vitiswork", .create_advanced_options_dict "0",
       .create_platform_component "ARTY"
         "$COMPONENT_LOCATION/../../Do_an_v1/artyz7_20_platform.xsa"
         "standalone" "ps7_cortexa9_0" "standalone_ps7_cortexa9_0"
         false (some (.options "0")) "gcc",
       .get_component "ARTY", .build (some (.component .retrieved "ARTY")), .dispose] := by
  simp [trace, run_15852 o h]

theorem trace_9876 (o : Oracle) (h : ∀ k, o.raises k = false) :
    trace workspace_journal_9876 o =
      [.create_client, .set_workspace "vitiswork", .get_component "ARTY",
       .build (some (.component .retrieved "ARTY")), .get_component "app_component",
       .build (some (.component .retrieved "app_component")), .dispose] := by
  simp [trace, run_9876 o h]

theorem trace_14312 (o : Oracle) (h : ∀ k, o.raises k = false) :
    trace workspace_journal_14312 o =
      [.create_client, .set_workspace "vitiswork", .get_component "ARTY",
       .build (some (.component .retrieved "ARTY")), .get_component "app_component",
       .build (some (.component .retrieved "app_component")),
       .build (some (.component .retrieved "ARTY")), .dispose] := by
  simp [trace, run_14312 o h]

theorem finalEnv_15852 (o : Oracle) (h : ∀ k, o.raises k = false) :
    finalEnv workspace_journal_15852 o =
      ⟨some .client, some (.component .retrieved "ARTY"), none,
       some (.status (o.buildStatus 5)), some (.options "0")⟩ := by
  simp [finalEnv, run_15852 o h]

/-- Pointwise form of a non-raising hypothesis stated as a function
equation. -/
theorem noRaise_pointwise (o : Oracle) (h : o.raises = noRaiseOracle.raises) :
    ∀ k, o.raises k = false := fun k => by rw [h]; rfl

/-- C1: the claim that the teardown runs on every exit path is false — when
the toolchain raises at the first platform build call of
workspace_journal_9876, the run aborts with one session opened and no
dispose issued (the scripts have no try/finally). -/
theorem C1_counterexample :
    (trace workspace_journal_9876 raiseAtFirstBuild).countP isDispose = 0 ∧
    (trace workspace_journal_9876 raiseAtFirstBuild).countP isCreateClient = 1 ∧
    (trace workspace_journal_9876 raiseAtFirstBuild).countP isBuild = 1 ∧
    completes workspace_journal_9876 raiseAtFirstBuild = false := by
  decide

/-- C1 (amended): on every run in which no call raises, each journal issues
the teardown exactly once, matching its single session-opening call; on a
run where a call raises, the teardown is skipped. -/
theorem C1_dispose_on_success (o : Oracle) (h : o.raises = noRaiseOracle.raises) :
    ((trace workspace_journal_15852 o).countP isDispose = 1 ∧
     (trace workspace_journal_15852 o).countP isCreateClient = 1) ∧
    ((trace workspace_journal_9876 o).countP isDispose = 1 ∧
     (trace workspace_journal_9876 o).countP isCreateClient = 1) ∧
    ((trace workspace_journal_14312 o).countP isDispose = 1 ∧
     (trace workspace_journal_14312 o).countP isCreateClient = 1) := by
  have hk := noRaise_pointwise o h
  rw [trace_15852 o hk, trace_9876 o hk, trace_14312 o hk]
  decide

/-- C1 witness: the amended statement instantiated at the benign toolchain. -/
theorem C1_dispose_on_success_witness :
    noRaiseOracle.raises = noRaiseOracle.raises ∧
    (((trace workspace_journal_15852 noRaiseOracle).countP isDispose = 1 ∧
      (trace workspace_journal_15852 noRaiseOracle).countP isCreateClient = 1) ∧
     ((trace workspace_journal_9876 noRaiseOracle).countP isDispose = 1 ∧
      (trace workspace_journal_9876 noRaiseOracle).countP isCreateClient = 1) ∧
     ((trace workspace_journal_14312 noRaiseOracle).countP isDispose = 1 ∧
      (trace workspace_journal_14312 noRaiseOracle).countP isCreateClient = 1)) :=
  ⟨rfl, C1_dispose_on_success noRaiseOracle rfl⟩

/-- C2: build statuses never influence behaviour — two toolchains agreeing
on exception behaviour but returning arbitrary (possibly different) build
statuses drive every journal through the identical call sequence (same
names, arguments and order) and the same completion verdict. -/
theorem C2_status_noninterference (o₁ o₂ : Oracle) (h : o₁.raises = o₂.raises) :
    (trace workspace_journal_15852 o₁ = trace workspace_journal_15852 o₂ ∧
     completes workspace_journal_15852 o₁ = completes workspace_journal_15852 o₂) ∧
    (trace workspace_journal_9876 o₁ = trace workspace_journal_9876 o₂ ∧
     completes workspace_journal_9876 o₁ = completes workspace_journal_9876 o₂) ∧
    (trace workspace_journal_14312 o₁ = trace workspace_journal_14312 o₂ ∧
     completes workspace_journal_14312 o₁ = completes workspace_journal_14312 o₂) :=
  ⟨trace_status_indep _ hob_15852 hcf_15852 o₁ o₂ h,
   trace_status_indep _ hob_9876 hcf_9876 o₁ o₂ h,
   trace_status_indep _ hob_14312 hcf_14312 o₁ o₂ h⟩

/-- C2 witness: a success-reporting and a failure-reporting toolchain
(status 0 versus status 1, no exceptions) produce identical runs. -/
theorem C2_status_noninterference_witness :
    noRaiseOracle.raises = altStatusOracle.raises ∧
    ((trace workspace_journal_15852 noRaiseOracle = trace workspace_journal_15852 altStatusOracle ∧
      completes workspace_journal_15852 noRaiseOracle = completes workspace_journal_15852 altStatusOracle) ∧
     (trace workspace_journal_9876 noRaiseOracle = trace workspace_journal_9876 altStatusOracle ∧
      completes workspace_journal_9876 noRaiseOracle = completes workspace_journal_9876 altStatusOracle) ∧
     (trace workspace_journal_14312 noRaiseOracle = trace workspace_journal_14312 altStatusOracle ∧
      completes workspace_journal_14312 noRaiseOracle = completes workspace_journal_14312 altStatusOracle)) :=
  ⟨rfl, C2_status_noninterference noRaiseOracle altStatusOracle rfl⟩

/-- C3: in the rebuild-after-app-build journal, the build calls are exactly
three and in this literal order: the ARTY platform, the application
component, the ARTY platform again. -/
theorem C3_rebuild_order (o : Oracle) (h : o.raises = noRaiseOracle.raises) :
    (trace workspace_journal_14312 o).filter isBuild =
      [.build (some (.component .retrieved "ARTY")),
       .build (some (.component .retrieved "app_component")),
       .build (some (.component .retrieved "ARTY"))] ∧
    (trace workspace_journal_14312 o).countP isBuild = 3 := by
  rw [trace_14312 o (noRaise_pointwise o h)]
  decide

/-- C3 witness: the build order instantiated at the benign toolchain. -/
theorem C3_rebuild_order_witness :
    noRaiseOracle.raises = noRaiseOracle.raises ∧
    ((trace workspace_journal_14312 noRaiseOracle).filter isBuild =
      [.build (some (.component .retrieved "ARTY")),
       .build (some (.component .retrieved "app_component")),
       .build (some (.component .retrieved "ARTY"))] ∧
     (trace workspace_journal_14312 noRaiseOracle).countP isBuild = 3) :=
  ⟨rfl, C3_rebuild_order noRaiseOracle rfl⟩

/-- C4: the claim fails for the name app_component — across the three
transcripts (in timestamp order) it is retrieved twice but no creation call
for it appears anywhere. -/
theorem C4_counterexample :
    journal.countP (isGet "app_component") = 2 ∧
    journal.countP (isCreateComp "app_component") = 0 := by
  decide

/-- C4 (amended): in the combined timestamp-ordered transcript the name ARTY
is created exactly once, that creation precedes every retrieval of ARTY, and
ARTY is retrieved three times; app_component is retrieved twice although no
creation call for it appears in any transcript (its creation predates the
captured journals). -/
theorem C4_created_before_retrieved :
    journal.countP (isCreateComp "ARTY") = 1 ∧
    (journal.takeWhile (fun c => !(isCreateComp "ARTY" c))).countP (isGet "ARTY") = 0 ∧
    journal.countP (isGet "ARTY") = 3 ∧
    journal.countP (isGet "app_component") = 2 ∧
    journal.countP (isCreateComp "app_component") = 0 := by
  decide

/-- C5: every journal respects the design state machine — session opening
(create_client then set_workspace) is the first API activity, component
creation/lookup and builds happen only after the session is open, every
build runs on a handle obtained earlier in the session, and the teardown is
terminal: no API call of any kind follows it. -/
theorem C5_state_machine (o : Oracle) (h : o.raises = noRaiseOracle.raises) :
    ((trace workspace_journal_15852 o)[0]? = some .create_client ∧
     (trace workspace_journal_15852 o)[1]? = some (.set_workspace "vitiswork") ∧
     ((trace workspace_journal_15852 o).take 2).countP isComponentOp = 0 ∧
     ((trace workspace_journal_15852 o).take 2).countP isBuild = 0 ∧
     buildsResolved (trace workspace_journal_15852 o) = true ∧
     disposeTerminal (trace workspace_journal_15852 o) = true ∧
     (trace workspace_journal_15852 o).getLast? = some .dispose) ∧
    ((trace workspace_journal_9876 o)[0]? = some .create_client ∧
     (trace workspace_journal_9876 o)[1]? = some (.set_workspace "vitiswork") ∧
     ((trace workspace_journal_9876 o).take 2).countP isComponentOp = 0 ∧
     ((trace workspace_journal_9876 o).take 2).countP isBuild = 0 ∧
     buildsResolved (trace workspace_journal_9876 o) = true ∧
     disposeTerminal (trace workspace_journal_9876 o) = true ∧
     (trace workspace_journal_9876 o).getLast? = some .dispose) ∧
    ((trace workspace_journal_14312 o)[0]? = some .create_client ∧
     (trace workspace_journal_14312 o)[1]? = some (.set_workspace "vitiswork") ∧
     ((trace workspace_journal_14312 o).take 2).countP isComponentOp = 0 ∧
     ((trace workspace_journal_14312 o).take 2).countP isBuild = 0 ∧
     buildsResolved (trace workspace_journal_14312 o) = true ∧
     disposeTerminal (trace workspace_journal_14312 o) = true ∧
     (trace workspace_journal_14312 o).getLast? = some .dispose) := by
  have hk := noRaise_pointwise o h
  rw [trace_15852 o hk, trace_9876 o hk, trace_14312 o hk]
  decide

/-- C5 witness: the state-machine conformance instantiated at the benign
toolchain. -/
theorem C5_state_machine_witness :
    noRaiseOracle.raises = noRaiseOracle.raises ∧
    (((trace workspace_journal_15852 noRaiseOracle)[0]? = some .create_client ∧
      (trace workspace_journal_15852 noRaiseOracle)[1]? = some (.set_workspace "vitiswork") ∧
      ((trace workspace_journal_15852 noRaiseOracle).take 2).countP isComponentOp = 0 ∧
      ((trace workspace_journal_15852 noRaiseOracle).take 2).countP isBuild = 0 ∧
      buildsResolved (trace workspace_journal_15852 noRaiseOracle) = true ∧
      disposeTerminal (trace workspace_journal_15852 noRaiseOracle) = true ∧
      (trace workspace_journal_15852 noRaiseOracle).getLast? = some .dispose) ∧
     ((trace workspace_journal_9876 noRaiseOracle)[0]? = some .create_client ∧
      (trace workspace_journal_9876 noRaiseOracle)[1]? = some (.set_workspace "vitiswork") ∧
      ((trace workspace_journal_9876 noRaiseOracle).take 2).countP isComponentOp = 0 ∧
      ((trace workspace_journal_9876 noRaiseOracle).take 2).countP isBuild = 0 ∧
      buildsResolved (trace workspace_journal_9876 noRaiseOracle) = true ∧
      disposeTerminal (trace workspace_journal_9876 noRaiseOracle) = true ∧
      (trace workspace_journal_9876 noRaiseOracle).getLast? = some .dispose) ∧
     ((trace workspace_journal_14312 noRaiseOracle)[0]? = some .create_client ∧
      (trace workspace_journal_14312 noRaiseOracle)[1]? = some (.set_workspace "vitiswork") ∧
      ((trace workspace_journal_14312 noRaiseOracle).take 2).countP isComponentOp = 0 ∧
      ((trace workspace_journal_14312 noRaiseOracle).take 2).countP isBuild = 0 ∧
      buildsResolved (trace workspace_journal_14312 noRaiseOracle) = true ∧
      disposeTerminal (trace workspace_journal_14312 noRaiseOracle) = true ∧
      (trace workspace_journal_14312 noRaiseOracle).getLast? = some .dispose)) :=
  ⟨rfl, C5_state_machine noRaiseOracle rfl⟩

/-- C6: the creation scenario — workspace vitiswork is set, the ARTY
platform is created with OS standalone and CPU ps7_cortexa9_0, a subsequent
by-name lookup of ARTY yields the component that is then built, the
returned status is captured in the local status variable, and a later
session (journal 14312) again retrieves ARTY and builds it. -/
theorem C6_creation_scenario (o : Oracle) (h : o.raises = noRaiseOracle.raises) :
    (trace workspace_journal_15852 o)[1]? = some (.set_workspace "vitiswork") ∧
    (trace workspace_journal_15852 o)[3]? = some (.create_platform_component "ARTY"
      "$COMPONENT_LOCATION/../../Do_an_v1/artyz7_20_platform.xsa"
      "standalone" "ps7_cortexa9_0" "standalone_ps7_cortexa9_0"
      false (some (.options "0")) "gcc") ∧
    (trace workspace_journal_15852 o)[4]? = some (.get_component "ARTY") ∧
    (trace workspace_journal_15852 o)[5]? = some (.build (some (.component .retrieved "ARTY"))) ∧
    (finalEnv workspace_journal_15852 o).status = some (.status (o.buildStatus 5)) ∧
    (trace workspace_journal_14312 o)[2]? = some (.get_component "ARTY") ∧
    (trace workspace_journal_14312 o)[3]? = some (.build (some (.component .retrieved "ARTY"))) := by
  have hk := noRaise_pointwise o h
  rw [trace_15852 o hk, trace_14312 o hk, finalEnv_15852 o hk]
  exact ⟨rfl, rfl, rfl, rfl, rfl, rfl, rfl⟩

/-- C6 witness: the creation scenario instantiated at the benign toolchain. -/
theorem C6_creation_scenario_witness :
    noRaiseOracle.raises = noRaiseOracle.raises ∧
    ((trace workspace_journal_15852 noRaiseOracle)[1]? = some (.set_workspace "vitiswork") ∧
     (trace workspace_journal_15852 noRaiseOracle)[3]? = some (.create_platform_component "ARTY"
       "$COMPONENT_LOCATION/../../Do_an_v1/artyz7_20_platform.xsa"
       "standalone" "ps7_cortexa9_0" "standalone_ps7_cortexa9_0"
       false (some (.options "0")) "gcc") ∧
     (trace workspace_journal_15852 noRaiseOracle)[4]? = some (.get_component "ARTY") ∧
     (trace workspace_journal_15852 noRaiseOracle)[5]? = some (.build (some (.component .retrieved "ARTY"))) ∧
     (finalEnv workspace_journal_15852 noRaiseOracle).status = some (.status (noRaiseOracle.buildStatus 5)) ∧
     (trace workspace_journal_14312 noRaiseOracle)[2]? = some (.get_component "ARTY") ∧
     (trace workspace_journal_14312 noRaiseOracle)[3]? = some (.build (some (.component .retrieved "ARTY")))) :=
  ⟨rfl, C6_creation_scenario noRaiseOracle rfl⟩

/-- C7: in every journal the workspace path is configured exactly once —
one set_workspace call, immediately after create_client and before any
component lookup, creation or build — and never changed afterwards. -/
theorem C7_workspace_once (o : Oracle) (h : o.raises = noRaiseOracle.raises) :
    ((trace workspace_journal_15852 o).countP isSetWorkspace = 1 ∧
     (trace workspace_journal_15852 o)[0]? = some .create_client ∧
     (trace workspace_journal_15852 o)[1]? = some (.set_workspace "vitiswork") ∧
     ((trace workspace_journal_15852 o).take 2).countP isComponentOp = 0 ∧
     ((trace workspace_journal_15852 o).take 2).countP isBuild = 0) ∧
    ((trace workspace_journal_9876 o).countP isSetWorkspace = 1 ∧
     (trace workspace_journal_9876 o)[0]? = some .create_client ∧
     (trace workspace_journal_9876 o)[1]? = some (.set_workspace "vitiswork") ∧
     ((trace workspace_journal_9876 o).take 2).countP isComponentOp = 0 ∧
     ((trace workspace_journal_9876 o).take 2).countP isBuild = 0) ∧
    ((trace workspace_journal_14312 o).countP isSetWorkspace = 1 ∧
     (trace workspace_journal_14312 o)[0]? = some .create_client ∧
     (trace workspace_journal_14312 o)[1]? = some (.set_workspace "vitiswork") ∧
     ((trace workspace_journal_14312 o).take 2).countP isComponentOp = 0 ∧
     ((trace workspace_journal_14312 o).take 2).countP isBuild = 0) := by
  have hk := noRaise_pointwise o h
  rw [trace_15852 o hk, trace_9876 o hk, trace_14312 o hk]
  decide

/-- C7 witness: the workspace-once property instantiated at the benign
toolchain. -/
theorem C7_workspace_once_witness :
    noRaiseOracle.raises = noRaiseOracle.raises ∧
    (((trace workspace_journal_15852 noRaiseOracle).countP isSetWorkspace = 1 ∧
      (trace workspace_journal_15852 noRaiseOracle)[0]? = some .create_client ∧
      (trace workspace_journal_15852 noRaiseOracle)[1]? = some (.set_workspace "vitiswork") ∧
      ((trace workspace_journal_15852 noRaiseOracle).take 2).countP isComponentOp = 0 ∧
      ((trace workspace_journal_15852 noRaiseOracle).take 2).countP isBuild = 0) ∧
     ((trace workspace_journal_9876 noRaiseOracle).countP isSetWorkspace = 1 ∧
      (trace workspace_journal_9876 noRaiseOracle)[0]? = some .create_client ∧
      (trace workspace_journal_9876 noRaiseOracle)[1]? = some (.set_workspace "vitiswork") ∧
      ((trace workspace_journal_9876 noRaiseOracle).take 2).countP isComponentOp = 0 ∧
      ((trace workspace_journal_9876 noRaiseOracle).take 2).countP isBuild = 0) ∧
     ((trace workspace_journal_14312 noRaiseOracle).countP isSetWorkspace = 1 ∧
      (trace workspace_journal_14312 noRaiseOracle)[0]? = some .create_client ∧
      (trace workspace_journal_14312 noRaiseOracle)[1]? = some (.set_workspace "vitiswork") ∧
      ((trace workspace_journal_14312 noRaiseOracle).take 2).countP isComponentOp = 0 ∧
      ((trace workspace_journal_14312 noRaiseOracle).take 2).countP isBuild = 0)) :=
  ⟨rfl, C7_workspace_once noRaiseOracle rfl⟩

/-- C8: a build call is idempotent with respect to the repository-local
state — executing a build statement twice in succession (with any statuses
the toolchain returns) leaves the local variable environment exactly as one
execution does, for both build statements of the journals (the
status-capturing platform build and the result-discarding app build). -/
theorem C8_build_idempotent (env : Env) (st st' : Int) :
    (stepEnv stmtBuildPlatform st (stepEnv stmtBuildPlatform st env) =
      stepEnv stmtBuildPlatform st env) ∧
    (stepEnv stmtBuildPlatform st' (stepEnv stmtBuildPlatform st env) =
      stepEnv stmtBuildPlatform st' env) ∧
    (stepEnv stmtBuildApp st (stepEnv stmtBuildApp st env) =
      stepEnv stmtBuildApp st env) ∧
    (stepEnv stmtBuildApp st' (stepEnv stmtBuildApp st env) =
      stepEnv stmtBuildApp st' env) :=
  ⟨rfl, rfl, rfl, rfl⟩

/-- C9: every build in every journal is invoked on a handle produced by
get_component, never on the handle returned by create_platform_component —
in the creation journal the created handle is overwritten by a fresh lookup
of ARTY before the first build. -/
theorem C9_builds_on_retrieved (o : Oracle) (h : o.raises = noRaiseOracle.raises) :
    (trace workspace_journal_15852 o).all buildOnRetrieved = true ∧
    (trace workspace_journal_9876 o).all buildOnRetrieved = true ∧
    (trace workspace_journal_14312 o).all buildOnRetrieved = true ∧
    (trace workspace_journal_15852 o)[3]? = some (.create_platform_component "ARTY"
      "$COMPONENT_LOCATION/../../Do_an_v1/artyz7_20_platform.xsa"
      "standalone" "ps7_cortexa9_0" "standalone_ps7_cortexa9_0"
      false (some (.options "0")) "gcc") ∧
    (trace workspace_journal_15852 o)[4]? = some (.get_component "ARTY") ∧
    (trace workspace_journal_15852 o)[5]? = some (.build (some (.component .retrieved "ARTY"))) := by
  have hk := noRaise_pointwise o h
  rw [trace_15852 o hk, trace_9876 o hk, trace_14312 o hk]
  decide

/-- C9 witness: builds on retrieved handles, instantiated at the benign
toolchain. -/
theorem C9_builds_on_retrieved_witness :
    noRaiseOracle.raises = noRaiseOracle.raises ∧
    ((trace workspace_journal_15852 noRaiseOracle).all buildOnRetrieved = true ∧
     (trace workspace_journal_9876 noRaiseOracle).all buildOnRetrieved = true ∧
     (trace workspace_journal_14312 noRaiseOracle).all buildOnRetrieved = true ∧
     (trace workspace_journal_15852 noRaiseOracle)[3]? = some (.create_platform_component "ARTY"
       "$COMPONENT_LOCATION/../../Do_an_v1/artyz7_20_platform.xsa"
       "standalone" "ps7_cortexa9_0" "standalone_ps7_cortexa9_0"
       false (some (.options "0")) "gcc") ∧
     (trace workspace_journal_15852 noRaiseOracle)[4]? = some (.get_component "ARTY") ∧
     (trace workspace_journal_15852 noRaiseOracle)[5]? = some (.build (some (.component .retrieved "ARTY")))) :=
  ⟨rfl, C9_builds_on_retrieved noRaiseOracle rfl⟩

/-- C10: the ARTY platform is created with device-tree generation disabled
on both knobs (generate_dtb false and an advanced-options dictionary built
with dt_overlay zero), domain standalone_ps7_cortexa9_0, compiler gcc, and
the hardware design reference of the Do_an_v1 exported design. -/
theorem C10_platform_creation_config (o : Oracle) (h : o.raises = noRaiseOracle.raises) :
    (trace workspace_journal_15852 o)[2]? = some (.create_advanced_options_dict "0") ∧
    (trace workspace_journal_15852 o)[3]? = some (.create_platform_component "ARTY"
      "$COMPONENT_LOCATION/../../Do_an_v1/artyz7_20_platform.xsa"
      "standalone" "ps7_cortexa9_0" "standalone_ps7_cortexa9_0"
      false (some (.options "0")) "gcc") := by
  rw [trace_15852 o (noRaise_pointwise o h)]
  exact ⟨rfl, rfl⟩

/-- C10 witness: the creation configuration instantiated at the benign
toolchain. -/
theorem C10_platform_creation_config_witness :
    noRaiseOracle.raises = noRaiseOracle.raises ∧
    ((trace workspace_journal_15852 noRaiseOracle)[2]? = some (.create_advanced_options_dict "0") ∧
     (trace workspace_journal_15852 noRaiseOracle)[3]? = some (.create_platform_component "ARTY"
       "$COMPONENT_LOCATION/../../Do_an_v1/artyz7_20_platform.xsa"
       "standalone" "ps7_cortexa9_0" "standalone_ps7_cortexa9_0"
       false (some (.options "0")) "gcc")) :=
  ⟨rfl, C10_platform_creation_config noRaiseOracle rfl⟩

end Uart
